import Mathlib

/-!
Verification development for the Synapse mentoring pipeline.

The multi-agent backend (memory, planner, executor, evaluator agents, the
orchestrator, and the dashboard service) is embedded shallowly from the code
excerpts quoted in `src/docs/PROJECT_TECHNICAL_GUIDE.md` and
`src/docs/BACKEND_ANALYSIS.md`; the frontend read helpers and the chat edge
function are embedded from `src/src/services/api.ts` and
`src/supabase/functions/chat/index.ts`.  Language Model Gateway calls are
modelled by explicit outcome values (success with a payload, or failure), and
the MongoDB bounded-array writes by a pure push-with-slice on lists.
-/

/-- Substring helper: does the character list start with the pattern. -/
def starts_with_chars : List Char → List Char → Bool
  | _, [] => true
  | [], _ :: _ => false
  | c :: cs, p :: ps => c == p && starts_with_chars cs ps

/-- Substring helper: does the pattern occur anywhere in the character list. -/
def chars_contain : List Char → List Char → Bool
  | [], p => p.isEmpty
  | c :: cs, p => starts_with_chars (c :: cs) p || chars_contain cs p

/-- Substring test on strings, mirroring the Python `in` operator on `str`. -/
def str_contains (s pat : String) : Bool := chars_contain s.data pat.data

/-- Lowercasing, mirroring the Python `str.lower()` call on user messages. -/
def lower (s : String) : String := String.mk (s.data.map Char.toLower)

/-- One committed evaluation snapshot, from the `EvaluationResult` shape in the
evaluator excerpt (clarity score, understanding delta, confusion trend,
struggle flag, reasoning).  The Python dictionary field `struggle_detected` is
falsy (`None` or empty) exactly when the string here is empty. -/
structure EvaluationResult where
  clarity_score : Int
  understanding_delta : Int
  confusion_trend : String
  struggle_detected : String
  reasoning : String
deriving DecidableEq, Repr

/-- The fixed phrase list from the fail-safe excerpt in
`src/docs/PROJECT_TECHNICAL_GUIDE.md` (evaluator_agent.py, lines 100-130). -/
def explicit_confusion_markers : List String :=
  ["don\x27t get it", "dont get it", "don\x27t understand", "dont understand",
   "im confused", "i\x27m confused", "doesn\x27t make sense", "doesnt make sense",
   "still unclear", "lost", "what do you mean"]

/-- Marker scan from the fail-safe excerpt:
`any(m in user_message.lower() for m in explicit_confusion_markers)`. -/
def is_explicitly_confused (user_message : String) : Bool :=
  explicit_confusion_markers.any (fun m => str_contains (lower user_message) m)

/-- Fail-safe step 1 of the evaluator excerpt: block a clarity increase, and
tag the reasoning when the cap fires. -/
def cap_clarity (r : EvaluationResult) (prev_clarity : Int) : EvaluationResult :=
  if r.clarity_score > prev_clarity then
    { r with clarity_score := prev_clarity,
             reasoning := r.reasoning ++ " [FAILSAFE: Score capped due to explicit confusion]" }
  else r

/-- Fail-safe step 2 of the evaluator excerpt: enforce a non-positive delta. -/
def cap_delta (r : EvaluationResult) : EvaluationResult :=
  if r.understanding_delta > 0 then { r with understanding_delta := 0 } else r

/-- Fail-safe step 3 of the evaluator excerpt: block the `improving` trend. -/
def block_improving (r : EvaluationResult) : EvaluationResult :=
  if r.confusion_trend = "improving" then { r with confusion_trend := "stable" } else r

/-- Fail-safe step 4 of the evaluator excerpt: enforce struggle detection when
the model left it unset (falsy). -/
def force_struggle (r : EvaluationResult) : EvaluationResult :=
  if r.struggle_detected = "" then { r with struggle_detected := "explicit confusion" } else r

/-- The fail-safe of the evaluator excerpt: when the lowercased user message
contains an explicit-confusion marker, apply the four mutations in source
order; otherwise the model result is committed unchanged. -/
def apply_failsafe (result : EvaluationResult) (user_message : String)
    (prev_clarity : Int) : EvaluationResult :=
  if is_explicitly_confused user_message then
    force_struggle (block_improving (cap_delta (cap_clarity result prev_clarity)))
  else result

/-- Outcome of the Gateway call made by the evaluator: either structured output
parsed into an `EvaluationResult`, or a failure (timeout, exception, malformed
JSON). -/
inductive GatewayEval
  | ok (r : EvaluationResult)
  | failure
deriving DecidableEq

/-- Modelled from the spec: the body of `_default_evaluation` is named in
`src/docs/PROJECT_TECHNICAL_GUIDE.md` (line 881) but its code is not under
`src/`; section 4.4 step 1 of the spec fixes its fields: clarity unchanged,
delta 0, trend stable, no struggle, reasoning "evaluation unavailable." -/
def default_evaluation (prev_clarity : Int) : EvaluationResult :=
  { clarity_score := prev_clarity
    understanding_delta := 0
    confusion_trend := "stable"
    struggle_detected := ""
    reasoning := "evaluation unavailable." }

/-- The evaluator Gateway step: model output is taken as parsed on success, and
the default evaluation is substituted on failure or malformed output. -/
def evaluate_interaction (message response : String) (prev_clarity : Int)
    (gw : GatewayEval) : EvaluationResult :=
  match message, response, gw with
  | _, _, .ok r => r
  | _, _, .failure => default_evaluation prev_clarity

/-- Verbosity levels of a planner strategy, from the Strategy JSON described in
`src/docs/PROJECT_TECHNICAL_GUIDE.md` step 3 (brief / normal / detailed). -/
inductive Verbosity
  | brief
  | normal
  | detailed
deriving DecidableEq, Repr

/-- The verbosity to maximum-reply-line-count mapping: brief 4, normal 6,
detailed 8 (guide, step 3 and step 4). -/
def max_lines : Verbosity → Nat
  | .brief => 4
  | .normal => 6
  | .detailed => 8

/-- A planner strategy, from the strategy JSON shape in the guide (step 3) and
`src/docs/BACKEND_ANALYSIS.md`. -/
structure Strategy where
  strategy : String
  tone : String
  verbosity : Verbosity
  pacing : String
  should_ask_question : Bool
deriving DecidableEq, Repr

/-- Outcome of the planner Gateway call: a parsed strategy, or a failure
(call failed or unparseable output). -/
inductive GatewayPlan
  | ok (s : Strategy)
  | failure
deriving DecidableEq

/-- Modelled from the spec: the body of `_default_strategy` is named in
`src/docs/PROJECT_TECHNICAL_GUIDE.md` (line 881) but its code is not under
`src/`; section 4.2 of the spec fixes its fields: strategy support, tone warm,
verbosity normal, pacing normal, no question. -/
def default_strategy : Strategy :=
  { strategy := "support"
    tone := "warm"
    verbosity := .normal
    pacing := "normal"
    should_ask_question := false }

/-- One chat message record, as written by `ChatService.add_message` with a
sender of "user" or "mentor". -/
structure ChatMessage where
  sender : String
  text : String
deriving DecidableEq, Repr

/-- The ephemeral per-request context, from the `UserContext` data model:
profile lists, the bounded evaluation history, and the recent chat turns. -/
structure UserContext where
  interests : List String
  goals : List String
  evaluation_history : List EvaluationResult
  recent_chat : List ChatMessage
deriving DecidableEq

/-- The planner: on a parsed Gateway strategy the pipeline uses it, on failure
or unparseable output the default strategy is substituted and the pipeline
continues. -/
def plan_response (ctx : UserContext) (message : String) (gw : GatewayPlan) : Strategy :=
  match ctx, message, gw with
  | _, _, .ok s => s
  | _, _, .failure => default_strategy

/-- Outcome of the executor Gateway call.  A generated reply is modelled by its
line decomposition (the list of its lines), so that the line count of a reply
is the length of the list. -/
inductive GatewayText
  | ok (lines : List String)
  | failure
deriving DecidableEq

/-- The fixed graceful fallback reply of the executor, from the excerpt in
`src/docs/PROJECT_TECHNICAL_GUIDE.md` (executor_agent.py, lines 616-619). -/
def fallback_text : String := "I\x27m with you. Tell me more about what\x27s on your mind."

/-- Modelled from the spec: executor_agent.py is not under `src/`; the
deterministic enforcement of the verbosity line bound at the generator
boundary is modelled from section 3 and section 4.3 of the spec (the docs
under `src/` state the bound as a hard prompt rule but do not show the
success-path body). -/
def enforce_verbosity (v : Verbosity) (lines : List String) : List String :=
  lines.take (max_lines v)

/-- The executor: on Gateway success the reply is the model text under the
verbosity bound; on Gateway failure the fixed fallback reply is returned
instead of propagating the error. -/
def generate_response (ctx : UserContext) (message : String) (strategy : Strategy)
    (gw : GatewayText) : List String :=
  match ctx, message, gw with
  | _, _, .ok lines => enforce_verbosity strategy.verbosity lines
  | _, _, .failure => [fallback_text]

/-- Joins the line decomposition of a reply back into the reply string. -/
def reply_text : List String → String
  | [] => ""
  | [l] => l
  | l :: ls => l ++ "\n" ++ reply_text ls

/-- The MongoDB bounded-array write `$push` with `$slice: -cap` (guide, lines
697-698): append the value, then keep only the last `cap` entries. -/
def push_slice {α : Type} (l : List α) (x : α) (cap : Nat) : List α :=
  let l2 := l ++ [x]
  l2.drop (l2.length - cap)

/-- Per-user effort metrics, from the `UserMemory` progress shape. -/
structure EffortMetrics where
  total_sessions : Nat
  session_dates : List String
  consistency_streak : Nat
deriving DecidableEq

/-- The persisted store touched by one request: the conversation messages and
the bounded evaluation history. -/
structure Store where
  messages : List ChatMessage
  evaluation_history : List EvaluationResult
deriving DecidableEq

/-- Context fetch of orchestrator step 2: the memory read plus the last five
conversation turns (`format_context_for_llm(chat_id, n=5)`). -/
def get_user_context (s : Store) : UserContext :=
  { interests := []
    goals := []
    evaluation_history := s.evaluation_history
    recent_chat := s.messages.drop (s.messages.length - 5) }

/-- The previous committed clarity score: the newest entry of the evaluation
history, with a neutral baseline of 50 for an empty history (the baseline is
not exercised by any claim). -/
def prev_clarity_of (history : List EvaluationResult) : Int :=
  match history.getLast? with
  | some e => e.clarity_score
  | none => 50

/-- The evaluation the background step commits for one turn: the Gateway
evaluation (or its default) with the fail-safe applied against the previous
committed clarity score. -/
def committed_evaluation (history : List EvaluationResult) (message response : String)
    (gw : GatewayEval) : EvaluationResult :=
  apply_failsafe (evaluate_interaction message response (prev_clarity_of history) gw)
    message (prev_clarity_of history)

/-- The work handed to the detached background step of the orchestrator:
the message/response pair to evaluate and the evaluator Gateway outcome. -/
structure BackgroundTask where
  message : String
  response : String
  gw_eval : GatewayEval
deriving DecidableEq

/-- What `process_message_async` has produced at its return point: the store
after the synchronous writes, the reply handed to the caller, and the
background task launched by `asyncio.create_task` but not yet run. -/
structure SyncResult where
  store : Store
  response : String
  background : BackgroundTask
deriving DecidableEq

/-- The synchronous half of `process_message_async` from the orchestrator
excerpt (guide, lines 317-335): persist the user message, fetch context, plan,
generate, persist the mentor response, and return the reply together with the
launched-but-not-run background task.  Under the cooperative event loop there
is no suspension point between `asyncio.create_task` and `return`, so the
background work is modelled as running strictly after the return. -/
def process_message_sync (s : Store) (user_message : String)
    (gw_plan : GatewayPlan) (gw_exec : GatewayText) (gw_eval : GatewayEval) : SyncResult :=
  let s1 : Store := { s with messages := s.messages ++ [⟨"user", user_message⟩] }
  let ctx := get_user_context s1
  let strategy := plan_response ctx user_message gw_plan
  let response := reply_text (generate_response ctx user_message strategy gw_exec)
  let s2 : Store := { s1 with messages := s1.messages ++ [⟨"mentor", response⟩] }
  { store := s2, response := response, background := ⟨user_message, response, gw_eval⟩ }

/-- The detached background step (orchestrator step 6): evaluate the turn and
append the committed result to the evaluation history through the bounded
push. -/
def run_background (s : Store) (t : BackgroundTask) : Store :=
  let result := committed_evaluation s.evaluation_history t.message t.response t.gw_eval
  { s with evaluation_history := push_slice s.evaluation_history result 20 }


/-- Momentum classification of the dashboard service, from the response shape
in `src/docs/BACKEND_ANALYSIS.md` (starting / building / steady /
accelerating). -/
inductive MomentumState
  | starting
  | building
  | steady
  | accelerating
deriving DecidableEq, Repr

/-- Modelled from the spec: the body of `_derive_momentum` in
dashboard_service.py is not under `src/`; the classification is modelled from
section 4.6 of the spec and the state logic described in the guide
(accelerating is high clarity with an improving trend, steady is high clarity
otherwise, no history is starting, everything else is building; session count
is ignored), with the high-clarity threshold 70 taken from the clarity
thresholds the docs state for the planner. -/
def momentum_state (history : List EvaluationResult) : MomentumState :=
  match history.getLast? with
  | none => .starting
  | some e =>
    if 70 ≤ e.clarity_score ∧ e.confusion_trend = "improving" then .accelerating
    else if 70 ≤ e.clarity_score then .steady
    else .building

/-- Insight text derivation, from the `_generate_truthful_insight` excerpt in
`src/docs/PROJECT_TECHNICAL_GUIDE.md` (dashboard_service.py, lines 384-397);
the branches beyond the excerpt are summarised by a neutral closing line that
no claim exercises. -/
def generate_truthful_insight (clarity : Int) (confusion_trend : String)
    (total_sessions : Nat) : String :=
  if 5 < total_sessions ∧ clarity < 40 then
    "High effort with " ++ toString total_sessions ++
      " sessions, but clarity remains challenging at " ++ toString clarity ++
      "%. Consider revisiting fundamentals."
  else if total_sessions ≤ 3 ∧ 60 ≤ clarity then
    "Efficient learning: " ++ toString clarity ++
      "% clarity achieved with minimal sessions. Quality over quantity."
  else if confusion_trend = "worsening" then
    "Understanding appears to be declining. Current clarity: " ++ toString clarity ++
      "%. This is normal - consider slowing down."
  else
    "Growing steadily - keep exploring at your own pace."

/-- The dashboard momentum derivation: a pure function of the stored effort
metrics and evaluation history, returning the classified state and the insight
text. -/
def derive_momentum (effort : EffortMetrics) (history : List EvaluationResult) :
    MomentumState × String :=
  match history.getLast? with
  | none => (momentum_state history, "Every journey begins with a single step.")
  | some e =>
    (momentum_state history,
     generate_truthful_insight e.clarity_score e.confusion_trend effort.total_sessions)

/-- Congratulatory phrases of the dashboard positive templates (the docs show
"on a roll" in a sample insight); used to state absence of unconditional
praise. -/
def praise_phrases : List String :=
  ["good job", "great job", "great work", "well done", "amazing", "on a roll",
   "keep it up", "crushing it"]

/-- Checks that an insight text contains none of the praise phrases
(case-insensitively). -/
def insight_no_praise (s : String) : Bool :=
  praise_phrases.all (fun p => !(str_contains (lower s) p))

/-- Body of a chat edge-function response, from
`src/supabase/functions/chat/index.ts`: either the streamed model output or a
JSON object carrying one error message string. -/
inductive ChatBody
  | stream (content : String)
  | errorJson (message : String)
deriving DecidableEq, Repr

/-- What the upstream AI gateway fetch produced for the chat edge function:
an OK response with a streamable body, a non-OK response with a status code
and its own response text, or a thrown network error with its message. -/
inductive GatewayHttp
  | ok (body : String)
  | status (code : Nat) (text : String)
  | netError (message : String)
deriving DecidableEq, Repr

/-- Fixed 429 message of the chat edge function. -/
def rate_limit_message : String :=
  "I need a moment to catch my breath. Please try again shortly."

/-- Fixed 402 message of the chat edge function. -/
def payment_message : String :=
  "Our conversation space needs some attention. Please check back soon."

/-- Fixed message of the chat edge function for other non-OK statuses. -/
def generic_failure_message : String := "Something went wrong. Let\x27s try again."

/-- Message of the error thrown when the API key env var is absent. -/
def missing_key_message : String := "LOVABLE_API_KEY is not configured"

/-- The chat edge-function handler from
`src/supabase/functions/chat/index.ts` (lines 37-118): a missing API key
throws and the catch branch echoes the thrown message; a non-OK gateway status
maps to one of three fixed messages; a thrown fetch error is caught and its
own message is echoed in the body; an OK gateway response is streamed
through.  Returns the HTTP status and the body. -/
def chat_handler (api_key : Option String) (gw : GatewayHttp) : Nat × ChatBody :=
  match api_key with
  | none => (500, .errorJson missing_key_message)
  | some _ =>
    match gw with
    | .ok b => (200, .stream b)
    | .netError m => (500, .errorJson m)
    | .status code _ =>
      if code = 429 then (429, .errorJson rate_limit_message)
      else if code = 402 then (402, .errorJson payment_message)
      else (500, .errorJson generic_failure_message)

/-- Outcome of one frontend fetch in `src/src/services/api.ts`: the parsed
response body on success, a JSON parse throw on an OK response, a non-OK HTTP
response, or a thrown network error. -/
inductive FetchOutcome (α : Type)
  | success (body : α)
  | badJson
  | notOk
  | netFail (message : String)
deriving DecidableEq

/-- The `data.memory` envelope read by `fetchUserMemory`. -/
structure MemoryEnvelope where
  memory : String
deriving DecidableEq

/-- The `data.roadmap` envelope read by `fetchRoadmap`. -/
structure RoadmapEnvelope where
  roadmap : String
deriving DecidableEq

/-- `fetchUserState` from `src/src/services/api.ts` (lines 62-73): the parsed
body on success, and null on a non-OK response or any caught throw. -/
def fetchUserState (o : FetchOutcome String) : Option String :=
  match o with
  | .success body => some body
  | .badJson => none
  | .notOk => none
  | .netFail _ => none

/-- `fetchUserMemory` from `src/src/services/api.ts` (lines 75-87): projects
`data.memory` on success, and null on a non-OK response or any caught throw. -/
def fetchUserMemory (o : FetchOutcome MemoryEnvelope) : Option String :=
  match o with
  | .success d => some d.memory
  | .badJson => none
  | .notOk => none
  | .netFail _ => none

/-- `fetchDashboardData` from `src/src/services/api.ts` (lines 117-128): the
parsed body on success, and null on a non-OK response or any caught throw. -/
def fetchDashboardData (o : FetchOutcome String) : Option String :=
  match o with
  | .success body => some body
  | .badJson => none
  | .notOk => none
  | .netFail _ => none

/-- `fetchRoadmap` from `src/src/services/api.ts` (lines 148-160): projects
`data.roadmap` on success, and null on a non-OK response or any caught
throw. -/
def fetchRoadmap (o : FetchOutcome RoadmapEnvelope) : Option String :=
  match o with
  | .success d => some d.roadmap
  | .badJson => none
  | .notOk => none
  | .netFail _ => none

theorem cap_clarity_le (r : EvaluationResult) (prev : Int) :
    (cap_clarity r prev).clarity_score ≤ prev := by
  unfold cap_clarity
  split
  · exact le_refl prev
  · omega

theorem cap_delta_clarity (r : EvaluationResult) :
    (cap_delta r).clarity_score = r.clarity_score := by
  unfold cap_delta
  split <;> rfl

theorem block_improving_clarity (r : EvaluationResult) :
    (block_improving r).clarity_score = r.clarity_score := by
  unfold block_improving
  split <;> rfl

theorem force_struggle_clarity (r : EvaluationResult) :
    (force_struggle r).clarity_score = r.clarity_score := by
  unfold force_struggle
  split <;> rfl

theorem cap_delta_le (r : EvaluationResult) :
    (cap_delta r).understanding_delta ≤ 0 := by
  unfold cap_delta
  split
  · dsimp only
    omega
  · omega

theorem block_improving_delta (r : EvaluationResult) :
    (block_improving r).understanding_delta = r.understanding_delta := by
  unfold block_improving
  split <;> rfl

theorem force_struggle_delta (r : EvaluationResult) :
    (force_struggle r).understanding_delta = r.understanding_delta := by
  unfold force_struggle
  split <;> rfl

theorem block_improving_ne (r : EvaluationResult) :
    (block_improving r).confusion_trend ≠ "improving" := by
  unfold block_improving
  split
  · dsimp only
    decide
  · assumption

theorem force_struggle_trend (r : EvaluationResult) :
    (force_struggle r).confusion_trend = r.confusion_trend := by
  unfold force_struggle
  split <;> rfl

theorem force_struggle_ne (r : EvaluationResult) :
    (force_struggle r).struggle_detected ≠ "" := by
  unfold force_struggle
  split
  · dsimp only
    decide
  · assumption

/-- C1: for every committed `EvaluationResult`, if the triggering user message
contains an explicit-confusion marker (case-insensitive substring match
against the fixed phrase list), then regardless of what the Language Model
Gateway returned, the result committed after `apply_failsafe` satisfies
clarity_score ≤ previous clarity score, understanding_delta ≤ 0,
confusion_trend ≠ improving, and struggle_detected ≠ none. -/
theorem failsafe_invariant (result : EvaluationResult) (user_message : String)
    (prev_clarity : Int) (h : is_explicitly_confused user_message = true) :
    (apply_failsafe result user_message prev_clarity).clarity_score ≤ prev_clarity ∧
    (apply_failsafe result user_message prev_clarity).understanding_delta ≤ 0 ∧
    (apply_failsafe result user_message prev_clarity).confusion_trend ≠ "improving" ∧
    (apply_failsafe result user_message prev_clarity).struggle_detected ≠ "" := by
  unfold apply_failsafe
  rw [if_pos h]
  refine ⟨?_, ?_, ?_, ?_⟩
  · rw [force_struggle_clarity, block_improving_clarity, cap_delta_clarity]
    exact cap_clarity_le result prev_clarity
  · rw [force_struggle_delta, block_improving_delta]
    exact cap_delta_le _
  · rw [force_struggle_trend]
    exact block_improving_ne _
  · exact force_struggle_ne _

/-- Witness for C1 at a concrete confused message and an inflating Gateway
result. -/
theorem failsafe_invariant_witness :
    is_explicitly_confused "I don\x27t understand this at all" = true ∧
    ((apply_failsafe ⟨90, 15, "improving", "", "looks great"⟩
        "I don\x27t understand this at all" 60).clarity_score ≤ 60 ∧
     (apply_failsafe ⟨90, 15, "improving", "", "looks great"⟩
        "I don\x27t understand this at all" 60).understanding_delta ≤ 0 ∧
     (apply_failsafe ⟨90, 15, "improving", "", "looks great"⟩
        "I don\x27t understand this at all" 60).confusion_trend ≠ "improving" ∧
     (apply_failsafe ⟨90, 15, "improving", "", "looks great"⟩
        "I don\x27t understand this at all" 60).struggle_detected ≠ "") :=
  ⟨by decide, failsafe_invariant ⟨90, 15, "improving", "", "looks great"⟩
      "I don\x27t understand this at all" 60 (by decide)⟩

/-- C2: for every handled request, the reply is produced before the evaluation
write of that turn is observable in the store (the evaluation history at the
return point of `process_message_sync` is unchanged), the user-message
persistence precedes the mentor-response persistence, and the evaluation write
lands only when the detached background step runs after the return. -/
theorem pipeline_ordering (s : Store) (user_message : String)
    (gp : GatewayPlan) (ge : GatewayText) (gv : GatewayEval) :
    (process_message_sync s user_message gp ge gv).store.evaluation_history
        = s.evaluation_history ∧
    (process_message_sync s user_message gp ge gv).store.messages
        = s.messages ++ [⟨"user", user_message⟩,
            ⟨"mentor", (process_message_sync s user_message gp ge gv).response⟩] ∧
    (run_background (process_message_sync s user_message gp ge gv).store
        (process_message_sync s user_message gp ge gv).background).evaluation_history
      = push_slice s.evaluation_history
          (committed_evaluation s.evaluation_history user_message
            (process_message_sync s user_message gp ge gv).response gv) 20 := by
  refine ⟨rfl, ?_, rfl⟩
  simp [process_message_sync]

theorem push_slice_length_le {α : Type} (l : List α) (x : α) (cap : Nat) :
    (push_slice l x cap).length ≤ cap := by
  simp only [push_slice, List.length_drop]
  omega

theorem foldl_push_slice_le {α : Type} (cap : Nat) (xs : List α) :
    ∀ init : List α, init.length ≤ cap →
      (xs.foldl (fun a x => push_slice a x cap) init).length ≤ cap := by
  induction xs with
  | nil => intro init h; simpa using h
  | cons y ys ih =>
    intro init _
    exact ih (push_slice init y cap) (push_slice_length_le init y cap)

theorem push_slice_full {α : Type} (l : List α) (x : α) (cap : Nat)
    (hcap : 1 ≤ cap) (h : l.length = cap) :
    push_slice l x cap = l.drop 1 ++ [x] := by
  simp only [push_slice, List.length_append, List.length_cons, List.length_nil]
  rw [show l.length + 1 - cap = 1 by omega, List.drop_append_of_le_length (by omega)]

theorem push_slice_last {α : Type} (l : List α) (x : α) (cap : Nat)
    (hcap : 1 ≤ cap) : (push_slice l x cap).getLast? = some x := by
  simp only [push_slice, List.length_append, List.length_cons, List.length_nil]
  rw [List.drop_append_of_le_length (by omega)]
  exact List.getLast?_concat _

/-- C3: after any sequence of bounded pushes the committed state keeps the
evaluation history at no more than 20 entries and the session dates at no more
than 100, eviction is FIFO (at the cap the oldest entry is dropped), and the
newest entry is kept newest-last. -/
theorem bounded_history_invariant
    (evInit : List EvaluationResult) (dInit : List String)
    (evAppends : List EvaluationResult) (dAppends : List String)
    (l : List EvaluationResult) (x : EvaluationResult)
    (h1 : evInit.length ≤ 20) (h2 : dInit.length ≤ 100) (h3 : l.length = 20) :
    (evAppends.foldl (fun a e => push_slice a e 20) evInit).length ≤ 20 ∧
    (dAppends.foldl (fun a d => push_slice a d 100) dInit).length ≤ 100 ∧
    push_slice l x 20 = l.drop 1 ++ [x] ∧
    (push_slice l x 20).getLast? = some x :=
  ⟨foldl_push_slice_le 20 evAppends evInit h1,
   foldl_push_slice_le 100 dAppends dInit h2,
   push_slice_full l x 20 (by omega) h3,
   push_slice_last l x 20 (by omega)⟩

/-- Witness for C3 at a concrete full history. -/
theorem bounded_history_invariant_witness :
    ([] : List EvaluationResult).length ≤ 20 ∧
    (["2026-01-01"] : List String).length ≤ 100 ∧
    (List.replicate 20 (⟨50, 0, "stable", "", "r"⟩ : EvaluationResult)).length = 20 ∧
    (([⟨70, 5, "improving", "", "a"⟩, ⟨40, -5, "worsening", "math", "b"⟩] :
        List EvaluationResult).foldl (fun a e => push_slice a e 20) []).length ≤ 20 ∧
    ((["2026-01-02"] : List String).foldl
        (fun a d => push_slice a d 100) ["2026-01-01"]).length ≤ 100 ∧
    push_slice (List.replicate 20 (⟨50, 0, "stable", "", "r"⟩ : EvaluationResult))
        (⟨55, 5, "improving", "", "w"⟩ : EvaluationResult) 20
      = (List.replicate 20 (⟨50, 0, "stable", "", "r"⟩ : EvaluationResult)).drop 1
          ++ [⟨55, 5, "improving", "", "w"⟩] ∧
    (push_slice (List.replicate 20 (⟨50, 0, "stable", "", "r"⟩ : EvaluationResult))
        (⟨55, 5, "improving", "", "w"⟩ : EvaluationResult) 20).getLast?
      = some ⟨55, 5, "improving", "", "w"⟩ := by
  refine ⟨by decide, by decide, by decide, ?_⟩
  have h := bounded_history_invariant []
    ["2026-01-01"]
    [⟨70, 5, "improving", "", "a"⟩, ⟨40, -5, "worsening", "math", "b"⟩]
    ["2026-01-02"]
    (List.replicate 20 (⟨50, 0, "stable", "", "r"⟩ : EvaluationResult))
    ⟨55, 5, "improving", "", "w"⟩
    (by decide) (by decide) (by decide)
  exact ⟨h.1, h.2.1, h.2.2.1, h.2.2.2⟩

/-- C4: for every Gateway outcome including total failure, the executor
returns the fixed, non-empty graceful fallback reply instead of propagating
an error, so the pipeline still hands the caller a non-empty reply and does
not raise. -/
theorem generator_fallback (ctx : UserContext) (message : String)
    (strategy : Strategy) (s : Store) (gp : GatewayPlan) (gv : GatewayEval) :
    generate_response ctx message strategy .failure = [fallback_text] ∧
    fallback_text ≠ "" ∧
    (process_message_sync s message gp .failure gv).response = fallback_text :=
  ⟨rfl, by decide, rfl⟩

/-- C5: for every evaluation in which the Gateway call fails or returns
malformed output, the evaluator substitutes the default evaluation: clarity
equal to the previous clarity score, delta 0, trend stable, no struggle
detected, reasoning "evaluation unavailable." -/
theorem default_evaluation_on_failure (message response : String) (prev_clarity : Int) :
    evaluate_interaction message response prev_clarity .failure
        = default_evaluation prev_clarity ∧
    (evaluate_interaction message response prev_clarity .failure).clarity_score
        = prev_clarity ∧
    (evaluate_interaction message response prev_clarity .failure).understanding_delta = 0 ∧
    (evaluate_interaction message response prev_clarity .failure).confusion_trend
        = "stable" ∧
    (evaluate_interaction message response prev_clarity .failure).struggle_detected = "" ∧
    (evaluate_interaction message response prev_clarity .failure).reasoning
        = "evaluation unavailable." :=
  ⟨rfl, rfl, rfl, rfl, rfl, rfl⟩

/-- C6: for every planner call in which the Gateway fails or returns
unparseable output, the planner returns exactly the default strategy
(support, warm, normal verbosity, normal pacing, no forced question) and the
pipeline continues with it, producing the reply the executor generates under
the default strategy rather than aborting. -/
theorem default_strategy_on_failure (ctx : UserContext) (message : String)
    (s : Store) (ge : GatewayText) (gv : GatewayEval) :
    plan_response ctx message .failure = default_strategy ∧
    default_strategy.strategy = "support" ∧
    default_strategy.tone = "warm" ∧
    default_strategy.verbosity = .normal ∧
    default_strategy.pacing = "normal" ∧
    default_strategy.should_ask_question = false ∧
    (process_message_sync s message .failure ge gv).response
      = reply_text (generate_response
          (get_user_context { s with messages := s.messages ++ [⟨"user", message⟩] })
          message default_strategy ge) :=
  ⟨rfl, rfl, rfl, rfl, rfl, rfl, rfl⟩

/-- C7: for every strategy and every Gateway output, including an over-long
stubbed reply, the reply produced by the executor satisfies the deterministic
verbosity line bound: at most 4 lines for brief, 6 for normal, 8 for
detailed. -/
theorem verbosity_line_bound (ctx : UserContext) (message : String)
    (strategy : Strategy) (gw : GatewayText) :
    (generate_response ctx message strategy gw).length ≤ max_lines strategy.verbosity ∧
    max_lines .brief = 4 ∧ max_lines .normal = 6 ∧ max_lines .detailed = 8 := by
  refine ⟨?_, rfl, rfl, rfl⟩
  cases gw with
  | ok lines => exact List.length_take_le _ _
  | failure =>
    cases h : strategy.verbosity <;> simp [generate_response, max_lines, h]

/-- C8: momentum is a pure function of stored state classified from the
most-recent clarity score and confusion trend, not raw session count: with a
latest evaluation of clarity 30 and a stable trend the state is building
(so neither accelerating nor steady) for every session count, the state is
identical under any other effort metrics, and at total_sessions = 12 the
insight is the honest high-effort low-clarity text, free of unconditional
praise. -/
theorem momentum_honesty (effort effort2 : EffortMetrics)
    (history : List EvaluationResult) (e : EvaluationResult)
    (h1 : history.getLast? = some e)
    (h2 : e.clarity_score = 30)
    (h3 : e.confusion_trend = "stable")
    (h4 : effort.total_sessions = 12) :
    (derive_momentum effort history).1 = .building ∧
    (derive_momentum effort history).1 ≠ .accelerating ∧
    (derive_momentum effort history).1 ≠ .steady ∧
    (derive_momentum effort2 history).1 = (derive_momentum effort history).1 ∧
    (derive_momentum effort history).2
      = "High effort with 12 sessions, but clarity remains challenging at 30%. Consider revisiting fundamentals." ∧
    insight_no_praise (derive_momentum effort history).2 = true := by
  have hs : momentum_state history = .building := by
    unfold momentum_state
    rw [h1]
    simp only [h2, h3]
    decide
  have hd : ∀ ef : EffortMetrics, derive_momentum ef history
      = (momentum_state history,
         generate_truthful_insight e.clarity_score e.confusion_trend ef.total_sessions) := by
    intro ef
    unfold derive_momentum
    rw [h1]
  have hi : generate_truthful_insight e.clarity_score e.confusion_trend effort.total_sessions
      = "High effort with 12 sessions, but clarity remains challenging at 30%. Consider revisiting fundamentals." := by
    rw [h2, h3, h4]
    decide
  refine ⟨?_, ?_, ?_, ?_, ?_, ?_⟩
  · rw [hd effort]; exact hs
  · rw [hd effort]; dsimp only; rw [hs]; decide
  · rw [hd effort]; dsimp only; rw [hs]; decide
  · rw [hd effort2, hd effort]
  · rw [hd effort]; exact hi
  · rw [hd effort]
    simp only [hi]
    decide

/-- Witness for C8 at a concrete twelve-session, clarity-30 state. -/
theorem momentum_honesty_witness :
    ([(⟨30, 0, "stable", "", "ok"⟩ : EvaluationResult)].getLast?
        = some ⟨30, 0, "stable", "", "ok"⟩) ∧
    ((⟨30, 0, "stable", "", "ok"⟩ : EvaluationResult).clarity_score = 30) ∧
    ((⟨30, 0, "stable", "", "ok"⟩ : EvaluationResult).confusion_trend = "stable") ∧
    ((⟨12, [], 0⟩ : EffortMetrics).total_sessions = 12) ∧
    ((derive_momentum ⟨12, [], 0⟩ [⟨30, 0, "stable", "", "ok"⟩]).1 = .building ∧
     (derive_momentum ⟨12, [], 0⟩ [⟨30, 0, "stable", "", "ok"⟩]).1 ≠ .accelerating ∧
     (derive_momentum ⟨12, [], 0⟩ [⟨30, 0, "stable", "", "ok"⟩]).1 ≠ .steady ∧
     (derive_momentum ⟨999, [], 7⟩ [⟨30, 0, "stable", "", "ok"⟩]).1
        = (derive_momentum ⟨12, [], 0⟩ [⟨30, 0, "stable", "", "ok"⟩]).1 ∧
     (derive_momentum ⟨12, [], 0⟩ [⟨30, 0, "stable", "", "ok"⟩]).2
        = "High effort with 12 sessions, but clarity remains challenging at 30%. Consider revisiting fundamentals." ∧
     insight_no_praise (derive_momentum ⟨12, [], 0⟩ [⟨30, 0, "stable", "", "ok"⟩]).2
        = true) :=
  ⟨by decide, by decide, by decide, by decide,
   momentum_honesty ⟨12, [], 0⟩ ⟨999, [], 7⟩ [⟨30, 0, "stable", "", "ok"⟩]
     ⟨30, 0, "stable", "", "ok"⟩ (by decide) (by decide) (by decide) (by decide)⟩

/-- C9 counterexample: on the catch path of the chat edge function the
response body carries the thrown error's own message, which is none of the
three fixed generic messages, so the claim that every failure path shows only
a generic calm message is false on the code. -/
theorem chat_error_text_leak :
    (chat_handler (some "key") (.netError "upstream connection refused")).2
        = ChatBody.errorJson "upstream connection refused" ∧
    (chat_handler none (.ok "hello")).2 = ChatBody.errorJson missing_key_message ∧
    ChatBody.errorJson "upstream connection refused"
        ≠ ChatBody.errorJson rate_limit_message ∧
    ChatBody.errorJson "upstream connection refused"
        ≠ ChatBody.errorJson payment_message ∧
    ChatBody.errorJson "upstream connection refused"
        ≠ ChatBody.errorJson generic_failure_message := by
  refine ⟨rfl, rfl, ?_, ?_, ?_⟩ <;> decide

/-- C9 amended: when the Gateway returns a non-OK HTTP status, the chat edge
function's body is one of three fixed generic calm messages, independent of
the gateway's own response text; but when the handler throws (missing API key
or a network error), the catch branch echoes the thrown error's own message in
the body. -/
theorem chat_generic_on_gateway_status (k : String) (code : Nat) (t t2 m : String) :
    ((chat_handler (some k) (.status code t)).2 = ChatBody.errorJson rate_limit_message ∨
     (chat_handler (some k) (.status code t)).2 = ChatBody.errorJson payment_message ∨
     (chat_handler (some k) (.status code t)).2
        = ChatBody.errorJson generic_failure_message) ∧
    chat_handler (some k) (.status code t) = chat_handler (some k) (.status code t2) ∧
    (chat_handler (some k) (.netError m)).2 = ChatBody.errorJson m ∧
    (chat_handler none (.status code t)).2 = ChatBody.errorJson missing_key_message := by
  refine ⟨?_, rfl, rfl, rfl⟩
  unfold chat_handler
  dsimp only
  split_ifs <;> simp

/-- C10: each of the frontend read helpers fetchUserState, fetchUserMemory,
fetchDashboardData and fetchRoadmap returns null on a non-OK HTTP response,
on a thrown network error, and on a JSON parse throw; none of them propagates
an exception (each is a total function into an option). -/
theorem read_helpers_null_on_error (m : String) :
    fetchUserState .notOk = none ∧
    fetchUserState (.netFail m) = none ∧
    fetchUserState .badJson = none ∧
    fetchUserMemory .notOk = none ∧
    fetchUserMemory (.netFail m) = none ∧
    fetchUserMemory .badJson = none ∧
    fetchDashboardData .notOk = none ∧
    fetchDashboardData (.netFail m) = none ∧
    fetchDashboardData .badJson = none ∧
    fetchRoadmap .notOk = none ∧
    fetchRoadmap (.netFail m) = none ∧
    fetchRoadmap .badJson = none :=
  ⟨rfl, rfl, rfl, rfl, rfl, rfl, rfl, rfl, rfl, rfl, rfl, rfl⟩
